import Mathlib

/-!
Verification of the detection ingestion and alert orchestration pipeline
of the wildlife monitoring backend (`src/backend/main.py` together with
the persistence helpers of `src/backend/database.py`).

The embedding is shallow: the request handler `detect` becomes a pure
function of the request inputs and the ambient mutable state
(`_last_alert_time`), returning the trace of side effects it performs
(database inserts, notification dispatches, the gate-state update) in
the order the code performs them, together with the new gate state and
the HTTP response body.  External collaborators are represented by their
observable results: the YOLO model by the detection list it would report
(or `none` when not loaded), the SMS and email providers by an
`Except`-valued outcome of the attempted send, the authenticated user by
the row `get_user_by_token` returned.  Timestamps and confidences are
rationals, an exact model of the Python floats involved in the
comparisons the claims are about.
-/

namespace Backend

/-- One detection as built by `run_inference` (main.py lines 150-158):
a label, a confidence and the xyxy bounding box. -/
structure Detection where
  label : String
  confidence : ℚ
  x1 : ℚ
  y1 : ℚ
  x2 : ℚ
  y2 : ℚ
deriving DecidableEq, Repr

/-- The configured danger label set, main.py line 42. -/
def DANGER_CLASSES : List String := ["lion", "tiger", "elephant"]

/-- The `str.lower()` call of main.py line 272, mapping every character
to lower case (the detection labels involved are ASCII class names, on
which `Char.toLower` agrees with Python's `str.lower`). -/
def pyLower (s : String) : String :=
  ⟨s.data.map Char.toLower⟩

/-- Danger classification used in the comprehension at main.py line 272:
the lowercased label is a member of `DANGER_CLASSES`. -/
def isDangerLabel (d : Detection) : Bool :=
  DANGER_CLASSES.contains (pyLower d.label)

/-- The list comprehension `[d for d in detections if d["label"].lower()
in DANGER_CLASSES]` of main.py line 272, over an arbitrary batch. -/
def dangerOf (ds : List Detection) : List Detection :=
  ds.filter isDangerLabel

/-- `run_inference` (main.py lines 139-159): when the model failed to load
it returns the empty list without raising; otherwise it returns the
detections the model reports for the frame.  The model collaborator is
represented by the list it would report, or `none` when not loaded. -/
def run_inference (model : Option (List Detection)) : List Detection :=
  match model with
  | none => []
  | some ds => ds

/-- The builtin `max(danger, key=lambda x: x["confidence"])` of main.py
line 277: fold from the first element, replacing the running maximum only
on a strictly greater confidence, so of equally confident detections the
first seen wins. -/
def pyMaxBy : Detection → List Detection → Detection
  | b, [] => b
  | b, x :: xs => pyMaxBy (if x.confidence > b.confidence then x else b) xs

/-- The alert selector of main.py lines 272 and 277: filter the batch with
the danger predicate, then take the maximum-confidence element; absent
when nothing in the batch is dangerous (the code only evaluates `max`
under the `if danger` guard). -/
def select (batch : List Detection) (p : Detection → Bool) : Option Detection :=
  match batch.filter p with
  | [] => none
  | d :: ds => some (pyMaxBy d ds)

/-- The cooldown gate read-check (main.py line 276) and its commit
(main.py line 285) as one decision: fire iff `now - last >= window`;
on firing the stored timestamp becomes `now`, otherwise it is left
unchanged. -/
def try_fire (window last now : ℚ) : Bool × ℚ :=
  if window ≤ now - last then (true, now) else (false, last)

/-- Iterated gate decisions over a sequence of request timestamps,
threading `_last_alert_time` through, returning the accepted (fired)
timestamps in order. -/
def runGate (window : ℚ) : ℚ → List ℚ → List ℚ
  | _, [] => []
  | last, t :: ts =>
    if window ≤ t - last then t :: runGate window t ts
    else runGate window last ts

/-- Observable outcome of one notification channel invocation: the send
went through, the channel was unconfigured and silently skipped, or the
provider raised and the exception was caught inside the function. -/
inductive ChannelResult where
  | sent
  | skipped
  | failed
deriving DecidableEq, Repr

/-- `send_sms_alert` (main.py lines 164-188): skipped when the twilio
client was not configured or the demo number is missing; otherwise the
provider call is attempted inside a try/except that catches every
exception, so the function never raises. -/
def send_sms_alert (twilioConfigured : Bool) (demoNumber : Option String)
    (provider : Except String Unit) : ChannelResult :=
  if !twilioConfigured || demoNumber.isNone then ChannelResult.skipped
  else
    match provider with
    | Except.ok _ => ChannelResult.sent
    | Except.error _ => ChannelResult.failed

/-- `send_email_alert` (main.py lines 193-227): skipped when either
EMAIL_FROM or EMAIL_PASSWORD is unset; otherwise the SMTP send is
attempted inside a try/except that catches every exception, so the
function never raises. -/
def send_email_alert (emailFrom emailPass : Option String)
    (provider : Except String Unit) : ChannelResult :=
  if emailFrom.isNone || emailPass.isNone then ChannelResult.skipped
  else
    match provider with
    | Except.ok _ => ChannelResult.sent
    | Except.error _ => ChannelResult.failed

/-- The process-level notification configuration read from the
environment at startup (main.py lines 44-59 and 197-198). -/
structure NotifyConfig where
  twilioConfigured : Bool
  demoNumber : Option String
  emailFrom : Option String
  emailPass : Option String
deriving DecidableEq, Repr

/-- Per-channel success booleans of one notification dispatch. -/
structure NotificationOutcome where
  sms_sent : Bool
  email_sent : Bool
deriving DecidableEq, Repr

/-- The notification dispatch block of the alert branch (main.py lines
280-283): the SMS channel is invoked first, then the email channel, the
latter only when the recipient has a truthy email (the empty string
models an absent or NULL address).  Each channel's observable outcome is
returned as data; neither invocation can raise, every provider exception
being caught inside the channel function. -/
def notify (cfg : NotifyConfig) (smsProvider emailProvider : Except String Unit)
    (recipientEmail : String) : NotificationOutcome :=
  let s := send_sms_alert cfg.twilioConfigured cfg.demoNumber smsProvider
  let e :=
    if recipientEmail == "" then ChannelResult.skipped
    else send_email_alert cfg.emailFrom cfg.emailPass emailProvider
  ⟨s == ChannelResult.sent, e == ChannelResult.sent⟩

/-- The authenticated principal as returned by `get_user_by_token`
(database.py lines 235-249): id, name, email, phone.  An absent or NULL
email is modeled as the empty string, which is exactly what the truthy
test `if user.get("email")` of main.py line 282 rejects. -/
structure User where
  id : Int
  name : String
  email : String
  phone : String
deriving DecidableEq, Repr

/-- One side effect performed by the `/detect` handler, in the argument
layout of the database.py writers: `insert_detection(timestamp, label,
confidence, x, y, w, h, alert_sent)` (the handler passes the user id in
the `alert_sent` slot), `insert_log(user_id, animal, confidence,
image_path, message)`, `insert_alert(animal, confidence, image_path,
is_read)` (the handler passes the user id in the `image_path` slot), the
two notification dispatches, and the write to `_last_alert_time`. -/
inductive Event where
  | insertDetection (timestamp label : String) (confidence x y w h : ℚ)
      (alertSentSlot : Int)
  | insertLog (userId : Int) (animal : String) (confidence : ℚ)
      (imagePath message : String)
  | insertAlert (animal : String) (confidence : ℚ) (imagePathSlot : Int)
      (isRead : Int)
  | smsDispatch (animal : String) (confidence : ℚ) (ts : String)
      (result : ChannelResult)
  | emailDispatch (recipient animal : String) (confidence : ℚ) (ts : String)
      (result : ChannelResult)
  | gateUpdate (t : ℚ)
deriving DecidableEq, Repr

/-- The detection row the handler inserts for one detection
(main.py lines 258-268): x = x1, y = y1, w = x2 - x1, h = y2 - y1, and
the user id passed as the writer's last parameter. -/
def rowOf (tsDb : String) (uid : Int) (d : Detection) : Event :=
  Event.insertDetection tsDb d.label d.confidence d.x1 d.y1
    (d.x2 - d.x1) (d.y2 - d.y1) uid

/-- The persistence loop of main.py lines 257-269: for each detection in
batch order, one `insert_detection` row followed by one `insert_log` row
with message "frame detection". -/
def persistEvents (tsDb : String) (uid : Int) : List Detection → List Event
  | [] => []
  | d :: ds =>
      rowOf tsDb uid d ::
      Event.insertLog uid d.label d.confidence "" "frame detection" ::
      persistEvents tsDb uid ds

/-- The alert branch body of main.py lines 277-285 for a chosen top
detection: one alert row, the SMS dispatch, the conditional email
dispatch, and finally the write to `_last_alert_time`. -/
def alertBlock (u : User) (tsMsg : String) (now : ℚ) (cfg : NotifyConfig)
    (smsProvider emailProvider : Except String Unit) (top : Detection) :
    List Event :=
  [Event.insertAlert top.label top.confidence u.id 0,
   Event.smsDispatch top.label top.confidence tsMsg
     (send_sms_alert cfg.twilioConfigured cfg.demoNumber smsProvider)] ++
  (if u.email == "" then []
   else
     [Event.emailDispatch u.email top.label top.confidence tsMsg
       (send_email_alert cfg.emailFrom cfg.emailPass emailProvider)]) ++
  [Event.gateUpdate now]

/-- Result of a successfully authenticated `/detect` request: the side
effects in program order, the final value of `_last_alert_time`, and the
response body `{"detections": detections}`. -/
structure DetectResult where
  events : List Event
  lastAlertTime : ℚ
  response : List Detection
deriving DecidableEq, Repr

/-- The `/detect` handler body after authentication and image decode
(main.py lines 250-287): run inference, persist every detection with its
log row, filter the dangerous ones, and when the danger list is nonempty
and the cooldown has elapsed run the alert branch, updating
`_last_alert_time` as its last step. -/
def detectOk (u : User) (model : Option (List Detection)) (tsDb tsMsg : String)
    (now lastAlertTime window : ℚ) (cfg : NotifyConfig)
    (smsProvider emailProvider : Except String Unit) : DetectResult :=
  let detections := run_inference model
  let persist := persistEvents tsDb u.id detections
  match dangerOf detections with
  | [] => ⟨persist, lastAlertTime, detections⟩
  | d :: ds =>
    if window ≤ now - lastAlertTime then
      ⟨persist ++ alertBlock u tsMsg now cfg smsProvider emailProvider
         (pyMaxBy d ds),
       now, detections⟩
    else ⟨persist, lastAlertTime, detections⟩

/-- The full `/detect` handler (main.py lines 232-287): a missing or
unknown token aborts with 401 Unauthorized before any work; otherwise
the pipeline body runs and the request succeeds. -/
def detect (user? : Option User) (model : Option (List Detection))
    (tsDb tsMsg : String) (now lastAlertTime window : ℚ) (cfg : NotifyConfig)
    (smsProvider emailProvider : Except String Unit) :
    Except String DetectResult :=
  match user? with
  | none => Except.error "Unauthorized"
  | some u =>
      Except.ok (detectOk u model tsDb tsMsg now lastAlertTime window cfg
        smsProvider emailProvider)

/-- The alert rows of a trace. -/
def alertRows (evs : List Event) : List Event :=
  evs.filter fun e =>
    match e with
    | Event.insertAlert _ _ _ _ => true
    | _ => false

/-- The detection rows of a trace. -/
def detectionRows (evs : List Event) : List Event :=
  evs.filter fun e =>
    match e with
    | Event.insertDetection _ _ _ _ _ _ _ _ => true
    | _ => false

/-- The log rows of a trace whose message is "DANGER ALERT". -/
def dangerAlertLogs (evs : List Event) : List Event :=
  evs.filter fun e =>
    match e with
    | Event.insertLog _ _ _ _ msg => msg == "DANGER ALERT"
    | _ => false

/-- The database writes of a trace (detection, log and alert rows),
dispatch events and the gate update excluded. -/
def dbOps (evs : List Event) : List Event :=
  evs.filter fun e =>
    match e with
    | Event.insertDetection _ _ _ _ _ _ _ _ => true
    | Event.insertLog _ _ _ _ _ => true
    | Event.insertAlert _ _ _ _ => true
    | _ => false

/-- Whether an event is a notification dispatch (SMS or email). -/
def isDispatch : Event → Bool
  | Event.smsDispatch _ _ _ _ => true
  | Event.emailDispatch _ _ _ _ _ => true
  | _ => false

/-- Whether an event is the write to `_last_alert_time`. -/
def isGateUpdate : Event → Bool
  | Event.gateUpdate _ => true
  | _ => false

/-- Whether the trace contains an email dispatch. -/
def emailAttempted (evs : List Event) : Bool :=
  evs.any fun e =>
    match e with
    | Event.emailDispatch _ _ _ _ _ => true
    | _ => false

/-- Whether the first gate update of a trace comes strictly before its
first notification dispatch. -/
def gateUpdateBeforeDispatch (evs : List Event) : Bool :=
  evs.findIdx isGateUpdate < evs.findIdx isDispatch

/-! ### Concrete fixtures for witnesses and counterexamples -/

/-- A concrete authenticated user. -/
def uEx : User := ⟨1, "Administrator", "admin@wildlife.ai", "+919999999999"⟩

/-- A concrete notification configuration with both channels off. -/
def cfgEx : NotifyConfig := ⟨false, none, none, none⟩

/-- A concrete dangerous detection. -/
def dLion : Detection := ⟨"lion", 9/10, 10, 20, 50, 60⟩

/-- A concrete non-dangerous detection. -/
def dHuman : Detection := ⟨"human", 19/20, 0, 0, 0, 0⟩

/-- A concrete non-dangerous detection. -/
def dDeer : Detection := ⟨"deer", 99/100, 0, 0, 0, 0⟩

/-- The example batch of the spec: lion at 0.9, human at 0.95, deer at
0.99. -/
def exBatch : List Detection := [⟨"lion", 9/10, 0, 0, 0, 0⟩, dHuman, dDeer]

/-- The example danger predicate of the spec: the danger set is
\x7blion, human\x7d. -/
def exPred (d : Detection) : Bool :=
  ["lion", "human"].contains (pyLower d.label)

/-! ### Structural lemmas about the handler -/

/-- When nothing in the batch is dangerous the handler performs exactly
the persistence loop, leaves the gate state unchanged and responds with
the batch. -/
theorem detectOk_no_danger (u : User) (m : Option (List Detection))
    (tsDb tsMsg : String) (now last window : ℚ) (cfg : NotifyConfig)
    (sp ep : Except String Unit) (hd : dangerOf (run_inference m) = []) :
    detectOk u m tsDb tsMsg now last window cfg sp ep =
      ⟨persistEvents tsDb u.id (run_inference m), last, run_inference m⟩ := by
  simp only [detectOk, hd]

/-- When the cooldown has not elapsed the handler performs exactly the
persistence loop, leaves the gate state unchanged and responds with the
batch, whatever the danger list is. -/
theorem detectOk_cooldown (u : User) (m : Option (List Detection))
    (tsDb tsMsg : String) (now last window : ℚ) (cfg : NotifyConfig)
    (sp ep : Except String Unit) (hw : ¬ window ≤ now - last) :
    detectOk u m tsDb tsMsg now last window cfg sp ep =
      ⟨persistEvents tsDb u.id (run_inference m), last, run_inference m⟩ := by
  simp only [detectOk]
  cases hd : dangerOf (run_inference m) with
  | nil => rfl
  | cons d ds => simp [hw]

/-- When the danger list is nonempty and the cooldown has elapsed the
handler performs the persistence loop followed by the alert branch for
the maximum-confidence dangerous detection, and commits `now` to the
gate state. -/
theorem detectOk_fired (u : User) (m : Option (List Detection))
    (tsDb tsMsg : String) (now last window : ℚ) (cfg : NotifyConfig)
    (sp ep : Except String Unit) (d : Detection) (ds : List Detection)
    (hd : dangerOf (run_inference m) = d :: ds) (hw : window ≤ now - last) :
    detectOk u m tsDb tsMsg now last window cfg sp ep =
      ⟨persistEvents tsDb u.id (run_inference m) ++
         alertBlock u tsMsg now cfg sp ep (pyMaxBy d ds),
       now, run_inference m⟩ := by
  simp only [detectOk, hd]
  rw [if_pos hw]

/-- The persistence loop writes no alert rows. -/
theorem alertRows_persist (tsDb : String) (uid : Int) (ds : List Detection) :
    alertRows (persistEvents tsDb uid ds) = [] := by
  induction ds with
  | nil => rfl
  | cons d ds ih => simp [persistEvents, alertRows, rowOf, List.filter] at ih ⊢; exact ih

/-- The alert branch writes exactly one alert row, carrying the top
detection's label and confidence and the user id in the image-path
slot. -/
theorem alertRows_alertBlock (u : User) (tsMsg : String) (now : ℚ)
    (cfg : NotifyConfig) (sp ep : Except String Unit) (top : Detection) :
    alertRows (alertBlock u tsMsg now cfg sp ep top) =
      [Event.insertAlert top.label top.confidence u.id 0] := by
  cases h : u.email == "" <;> simp [alertBlock, alertRows, h, List.filter]

/-- The detection rows of the persistence loop, one per detection in
batch order. -/
theorem detectionRows_persist (tsDb : String) (uid : Int) (ds : List Detection) :
    detectionRows (persistEvents tsDb uid ds) = ds.map (rowOf tsDb uid) := by
  induction ds with
  | nil => rfl
  | cons d ds ih => simp [persistEvents, detectionRows, rowOf, List.filter] at ih ⊢; exact ih

/-- The alert branch writes no detection rows. -/
theorem detectionRows_alertBlock (u : User) (tsMsg : String) (now : ℚ)
    (cfg : NotifyConfig) (sp ep : Except String Unit) (top : Detection) :
    detectionRows (alertBlock u tsMsg now cfg sp ep top) = [] := by
  cases h : u.email == "" <;> simp [alertBlock, detectionRows, h, List.filter]

/-- Every log row of the persistence loop carries the message
"frame detection", so none is tagged "DANGER ALERT". -/
theorem dangerAlertLogs_persist (tsDb : String) (uid : Int) (ds : List Detection) :
    dangerAlertLogs (persistEvents tsDb uid ds) = [] := by
  induction ds with
  | nil => rfl
  | cons d ds ih => simp [persistEvents, dangerAlertLogs, rowOf, List.filter] at ih ⊢; exact ih

/-- The alert branch writes no log rows at all, in particular none tagged
"DANGER ALERT". -/
theorem dangerAlertLogs_alertBlock (u : User) (tsMsg : String) (now : ℚ)
    (cfg : NotifyConfig) (sp ep : Except String Unit) (top : Detection) :
    dangerAlertLogs (alertBlock u tsMsg now cfg sp ep top) = [] := by
  cases h : u.email == "" <;> simp [alertBlock, dangerAlertLogs, h, List.filter]

/-- Every event of the persistence loop is a database write. -/
theorem dbOps_persist (tsDb : String) (uid : Int) (ds : List Detection) :
    dbOps (persistEvents tsDb uid ds) = persistEvents tsDb uid ds := by
  induction ds with
  | nil => rfl
  | cons d ds ih => simp [persistEvents, dbOps, rowOf, List.filter] at ih ⊢; exact ih

/-- The only database write of the alert branch is the alert row; the
dispatch events and the gate update are filtered out, so the database
writes do not depend on the notification providers' outcomes. -/
theorem dbOps_alertBlock (u : User) (tsMsg : String) (now : ℚ)
    (cfg : NotifyConfig) (sp ep : Except String Unit) (top : Detection) :
    dbOps (alertBlock u tsMsg now cfg sp ep top) =
      [Event.insertAlert top.label top.confidence u.id 0] := by
  cases h : u.email == "" <;> simp [alertBlock, dbOps, h, List.filter]

/-- The persistence loop performs no notification dispatch and no gate
update. -/
theorem persist_only_inserts (tsDb : String) (uid : Int) (ds : List Detection) :
    ∀ e ∈ persistEvents tsDb uid ds, isDispatch e = false ∧ isGateUpdate e = false := by
  induction ds with
  | nil => simp [persistEvents]
  | cons d ds ih =>
      simp only [persistEvents, List.mem_cons]
      rintro e (rfl | rfl | he)
      · exact ⟨rfl, rfl⟩
      · exact ⟨rfl, rfl⟩
      · exact ih e he

/-- The persistence loop contains no email dispatch. -/
theorem emailAttempted_persist (tsDb : String) (uid : Int) (ds : List Detection) :
    emailAttempted (persistEvents tsDb uid ds) = false := by
  induction ds with
  | nil => rfl
  | cons d ds ih => simp [persistEvents, emailAttempted, rowOf] at ih ⊢; exact ih

/-- Whether the alert branch attempts the email channel depends only on
the recipient's email being truthy, never on either provider's
outcome. -/
theorem emailAttempted_alertBlock (u : User) (tsMsg : String) (now : ℚ)
    (cfg : NotifyConfig) (sp ep : Except String Unit) (top : Detection) :
    emailAttempted (alertBlock u tsMsg now cfg sp ep top) = !(u.email == "") := by
  cases h : u.email == "" <;> simp [alertBlock, emailAttempted, h]

/-! ### Gate lemmas -/

/-- Every accepted timestamp is one of the submitted timestamps. -/
theorem runGate_mem {window last a : ℚ} {ts : List ℚ}
    (h : a ∈ runGate window last ts) : a ∈ ts := by
  induction ts generalizing last with
  | nil => simp [runGate] at h
  | cons t ts ih =>
      simp only [runGate] at h
      by_cases hc : window ≤ t - last
      · rw [if_pos hc] at h
        rcases List.mem_cons.mp h with rfl | h
        · exact List.mem_cons_self _ _
        · exact List.mem_cons_of_mem _ (ih h)
      · rw [if_neg hc] at h
        exact List.mem_cons_of_mem _ (ih h)

/-- Between the start of a run and its first accepted timestamp the
stored gate state is unchanged, so every accepted timestamp of a run
started at state `last` lies at least a window after `last`, provided
the submitted timestamps are strictly increasing. -/
theorem runGate_ge {window last : ℚ} {ts : List ℚ}
    (hts : ts.Pairwise (· < ·)) :
    ∀ a ∈ runGate window last ts, window ≤ a - last := by
  induction ts generalizing last with
  | nil => simp [runGate]
  | cons t ts ih =>
      rcases List.pairwise_cons.mp hts with ⟨hlt, hts'⟩
      intro a ha
      simp only [runGate] at ha
      by_cases hc : window ≤ t - last
      · rw [if_pos hc] at ha
        rcases List.mem_cons.mp ha with rfl | ha
        · exact hc
        · have h2 : t < a := hlt a (runGate_mem ha)
          linarith
      · rw [if_neg hc] at ha
        exact ih hts' a ha

/-- The accepted timestamps of a strictly increasing submission sequence
are pairwise at least a window apart. -/
theorem runGate_pairwise (window last : ℚ) (ts : List ℚ)
    (hts : ts.Pairwise (· < ·)) :
    (runGate window last ts).Pairwise (fun a b => window ≤ b - a) := by
  induction ts generalizing last with
  | nil => simp [runGate]
  | cons t ts ih =>
      rcases List.pairwise_cons.mp hts with ⟨_, hts'⟩
      simp only [runGate]
      by_cases hc : window ≤ t - last
      · rw [if_pos hc]
        exact List.pairwise_cons.mpr ⟨fun b hb => runGate_ge hts' b hb, ih _ hts'⟩
      · rw [if_neg hc]
        exact ih _ hts'

/-! ### Selector lemma -/

/-- Characterization of the builtin max fold: the result splits the
scanned list into a strict-confidence prefix, itself, and a suffix, and
bounds every scanned confidence; the strict prefix is what makes ties
resolve to the first-seen detection. -/
theorem pyMaxBy_spec (b : Detection) (xs : List Detection) :
    ∃ l₁ l₂, b :: xs = l₁ ++ pyMaxBy b xs :: l₂ ∧
      (∀ e ∈ l₁, e.confidence < (pyMaxBy b xs).confidence) ∧
      (∀ e ∈ b :: xs, e.confidence ≤ (pyMaxBy b xs).confidence) := by
  induction xs generalizing b with
  | nil =>
      refine ⟨[], [], rfl, by simp, ?_⟩
      intro e he
      rcases List.mem_singleton.mp he with rfl
      exact le_rfl
  | cons x xs ih =>
      by_cases hgt : x.confidence > b.confidence
      · have hfold : pyMaxBy b (x :: xs) = pyMaxBy x xs := by
          simp [pyMaxBy, if_pos hgt]
        rcases ih x with ⟨l₁, l₂, hsplit, hpre, hbound⟩
        refine ⟨b :: l₁, l₂, ?_, ?_, ?_⟩
        · rw [hfold]
          simpa using congrArg (b :: ·) hsplit
        · intro e he
          rw [hfold]
          rcases List.mem_cons.mp he with rfl | he
          · exact lt_of_lt_of_le hgt (hbound x (List.mem_cons_self _ _))
          · exact hpre e he
        · intro e he
          rw [hfold]
          rcases List.mem_cons.mp he with rfl | he
          · exact le_of_lt (lt_of_lt_of_le hgt (hbound x (List.mem_cons_self _ _)))
          · exact hbound e he
      · have hfold : pyMaxBy b (x :: xs) = pyMaxBy b xs := by
          simp [pyMaxBy, if_neg hgt]
        have hxb : x.confidence ≤ b.confidence := le_of_not_lt hgt
        rcases ih b with ⟨l₁, l₂, hsplit, hpre, hbound⟩
        have hbmem : b.confidence ≤ (pyMaxBy b xs).confidence :=
          hbound b (List.mem_cons_self _ _)
        rcases l₁ with _ | ⟨hd, m⟩
        · simp only [List.nil_append] at hsplit
          have hb : pyMaxBy b xs = b := by
            injection hsplit with h1 h2
            exact h1.symm
          refine ⟨[], x :: xs, ?_, by simp, ?_⟩
          · rw [hfold, hb]
            rfl
          · intro e he
            rw [hfold, hb]
            rcases List.mem_cons.mp he with rfl | he
            · exact le_rfl
            rcases List.mem_cons.mp he with rfl | he
            · exact hxb
            · rw [← hb]
              exact hbound e (List.mem_cons_of_mem _ he)
        · have h1 : b = hd := by
            injection hsplit with h1 h2
          have h2 : xs = m ++ pyMaxBy b xs :: l₂ := by
            injection hsplit with h1 h2
          have hbr : b.confidence < (pyMaxBy b xs).confidence := by
            have hbd := hpre hd (List.mem_cons_self _ _)
            rw [← h1] at hbd
            exact hbd
          refine ⟨b :: x :: m, l₂, ?_, ?_, ?_⟩
          · rw [hfold]
            simp [← h2]
          · intro e he
            rw [hfold]
            rcases List.mem_cons.mp he with rfl | he
            · exact hbr
            rcases List.mem_cons.mp he with rfl | he
            · exact lt_of_le_of_lt hxb hbr
            · exact hpre e (List.mem_cons_of_mem _ he)
          · intro e he
            rw [hfold]
            rcases List.mem_cons.mp he with rfl | he
            · exact hbmem
            rcases List.mem_cons.mp he with rfl | he
            · exact le_trans hxb hbmem
            · exact hbound e (List.mem_cons_of_mem _ he)

/-- The alert-row filter distributes over concatenation. -/
theorem alertRows_append (l₁ l₂ : List Event) :
    alertRows (l₁ ++ l₂) = alertRows l₁ ++ alertRows l₂ := by
  simp [alertRows, List.filter_append]

/-- The detection-row filter distributes over concatenation. -/
theorem detectionRows_append (l₁ l₂ : List Event) :
    detectionRows (l₁ ++ l₂) = detectionRows l₁ ++ detectionRows l₂ := by
  simp [detectionRows, List.filter_append]

/-- The danger-log filter distributes over concatenation. -/
theorem dangerAlertLogs_append (l₁ l₂ : List Event) :
    dangerAlertLogs (l₁ ++ l₂) = dangerAlertLogs l₁ ++ dangerAlertLogs l₂ := by
  simp [dangerAlertLogs, List.filter_append]

/-- The database-write filter distributes over concatenation. -/
theorem dbOps_append (l₁ l₂ : List Event) :
    dbOps (l₁ ++ l₂) = dbOps l₁ ++ dbOps l₂ := by
  simp [dbOps, List.filter_append]

/-! ### Claims -/

/-- C1: for every processed frame request, an Alert row is created if
and only if the request's batch contains at least one danger-classified
detection and `now - last_alert_at >= cooldown_window`; in particular,
when the danger set is empty, no Alert row is written and the cooldown
state is left unchanged. -/
theorem C1_alert_iff_danger_and_cooldown (u : User) (m : Option (List Detection))
    (tsDb tsMsg : String) (now last window : ℚ) (cfg : NotifyConfig)
    (sp ep : Except String Unit) :
    (alertRows (detectOk u m tsDb tsMsg now last window cfg sp ep).events ≠ [] ↔
      (dangerOf (run_inference m) ≠ [] ∧ window ≤ now - last)) ∧
    (dangerOf (run_inference m) = [] →
      alertRows (detectOk u m tsDb tsMsg now last window cfg sp ep).events = [] ∧
      (detectOk u m tsDb tsMsg now last window cfg sp ep).lastAlertTime = last) := by
  by_cases hw : window ≤ now - last
  · cases hd : dangerOf (run_inference m) with
    | nil =>
        rw [detectOk_no_danger u m tsDb tsMsg now last window cfg sp ep hd]
        simp [alertRows_persist]
    | cons d ds =>
        rw [detectOk_fired u m tsDb tsMsg now last window cfg sp ep d ds hd hw]
        refine ⟨?_, ?_⟩
        · simp [alertRows_append, alertRows_persist, alertRows_alertBlock, hw]
        · intro h
          exact absurd h (List.cons_ne_nil d ds)
  · rw [detectOk_cooldown u m tsDb tsMsg now last window cfg sp ep hw]
    refine ⟨?_, fun _ => ⟨?_, rfl⟩⟩
    · simp [alertRows_persist, hw]
    · simp [alertRows_persist]

/-- Witness for C1 at a concrete request whose batch holds only a
non-dangerous detection: no alert row, gate state unchanged. -/
theorem C1_witness :
    alertRows (detectOk uEx (some [dHuman]) "td" "tm" 100 0 15 cfgEx
      (Except.ok ()) (Except.ok ())).events = [] ∧
    (detectOk uEx (some [dHuman]) "td" "tm" 100 0 15 cfgEx
      (Except.ok ()) (Except.ok ())).lastAlertTime = 0 :=
  (C1_alert_iff_danger_and_cooldown uEx (some [dHuman]) "td" "tm" 100 0 15 cfgEx
    (Except.ok ()) (Except.ok ())).2 (by decide)

/-- C2: over any strictly increasing sequence of firing decisions the
accepted timestamps are never closer than the window; a firing at `t`
commits `last_alert_at = t`, and a decision at `t'` with
`t' - last_alert_at < W` is rejected with the state unchanged. -/
theorem C2_cooldown_separation (window last : ℚ) (ts : List ℚ)
    (hts : ts.Pairwise (· < ·)) :
    (runGate window last ts).Pairwise (fun a b => window ≤ b - a) ∧
    (∀ l t, window ≤ t - l → try_fire window l t = (true, t)) ∧
    (∀ l t, t - l < window → try_fire window l t = (false, l)) := by
  refine ⟨runGate_pairwise window last ts hts, ?_, ?_⟩
  · intro l t h
    simp [try_fire, h]
  · intro l t h
    simp [try_fire, not_le.mpr h]

/-- Witness for C2: a firing commits the new timestamp, a decision
inside the window is rejected with the state unchanged. -/
theorem C2_witness :
    try_fire 15 0 20 = (true, 20) ∧ try_fire 15 20 30 = (false, 20) :=
  ⟨(C2_cooldown_separation 15 0 [10, 14, 20, 30, 36] (by decide)).2.1 0 20
     (by norm_num),
   (C2_cooldown_separation 15 0 [10, 14, 20, 30, 36] (by decide)).2.2 20 30
     (by norm_num)⟩

/-- The selector is absent exactly when the filtered batch is empty. -/
theorem select_eq_none (batch : List Detection) (p : Detection → Bool) :
    select batch p = none ↔ batch.filter p = [] := by
  unfold select
  cases hf : batch.filter p with
  | nil => simp
  | cons d ds => simp

/-- C4: the alert selector returns the dangerous detection of maximum
confidence, ties broken by first-seen order in the batch (every earlier
dangerous detection has strictly smaller confidence), and returns absent
when no detection is dangerous; on the spec's example batch with danger
set lion and human it returns the human detection at 0.95. -/
theorem C4_selector (batch : List Detection) (p : Detection → Bool) :
    (select batch p = none ↔ ∀ d ∈ batch, p d = false) ∧
    (∀ d, select batch p = some d →
      d ∈ batch.filter p ∧
      (∀ e ∈ batch, p e = true → e.confidence ≤ d.confidence) ∧
      (∃ l₁ l₂, batch.filter p = l₁ ++ d :: l₂ ∧
        ∀ e ∈ l₁, e.confidence < d.confidence)) ∧
    select exBatch exPred = some dHuman := by
  refine ⟨?_, ?_, ?_⟩
  · rw [select_eq_none, List.filter_eq_nil_iff]
    simp
  · intro d hd
    cases hf : batch.filter p with
    | nil =>
        rw [(select_eq_none batch p).mpr hf] at hd
        exact absurd hd (by simp)
    | cons a as =>
        have hsel : pyMaxBy a as = d := by
          unfold select at hd
          rw [hf] at hd
          exact Option.some.inj hd
        rcases pyMaxBy_spec a as with ⟨l₁, l₂, hsplit, hpre, hbound⟩
        rw [hsel] at hsplit hpre hbound
        refine ⟨?_, ?_, l₁, l₂, hsplit, hpre⟩
        · rw [hsplit]
          exact List.mem_append_right _ (List.mem_cons_self _ _)
        · intro e he hp
          have : e ∈ a :: as := by
            rw [← hf]
            exact List.mem_filter.mpr ⟨he, hp⟩
          exact hbound e this
  · have hplion : exPred ⟨"lion", (9:ℚ)/10, 0, 0, 0, 0⟩ = true := by decide
    have hphuman : exPred dHuman = true := by decide
    have hpdeer : exPred dDeer = false := by decide
    have hfil : exBatch.filter exPred = [⟨"lion", (9:ℚ)/10, 0, 0, 0, 0⟩, dHuman] := by
      simp [exBatch, List.filter_cons, hplion, hphuman, hpdeer]
    have hlt : (⟨"lion", (9:ℚ)/10, 0, 0, 0, 0⟩ : Detection).confidence
        < dHuman.confidence := by
      norm_num [dHuman]
    have hmax : pyMaxBy ⟨"lion", (9:ℚ)/10, 0, 0, 0, 0⟩ [dHuman] = dHuman := by
      simp [pyMaxBy, hlt]
    unfold select
    rw [hfil]
    simp [hmax]

/-- Witness for C4: the selected detection of the spec's example is a
member of the filtered batch (hypotheses discharged at the example). -/
theorem C4_witness : dHuman ∈ exBatch.filter exPred :=
  ((C4_selector exBatch exPred).2.1 dHuman (C4_selector exBatch exPred).2.2).1

/-- C5: every detection of an authenticated request is persisted as
exactly one row with x = x1, y = y1, w = x2 - x1, h = y2 - y1, in batch
order; these rows are written unconditionally, before any alert-branch
event; a detection with bbox (10,20,50,60) is stored with
x=10, y=20, w=40, h=40. -/
theorem C5_persistence (u : User) (m : Option (List Detection))
    (tsDb tsMsg : String) (now last window : ℚ) (cfg : NotifyConfig)
    (sp ep : Except String Unit) :
    detectionRows (detectOk u m tsDb tsMsg now last window cfg sp ep).events
      = (run_inference m).map (rowOf tsDb u.id) ∧
    (∃ tail, (detectOk u m tsDb tsMsg now last window cfg sp ep).events
        = persistEvents tsDb u.id (run_inference m) ++ tail ∧
      detectionRows tail = []) ∧
    rowOf tsDb u.id ⟨"lion", (9:ℚ)/10, 10, 20, 50, 60⟩
      = Event.insertDetection tsDb "lion" ((9:ℚ)/10) 10 20 40 40 u.id := by
  refine ⟨?_, ?_, by norm_num [rowOf]⟩
  · by_cases hw : window ≤ now - last
    · cases hd : dangerOf (run_inference m) with
      | nil =>
          rw [detectOk_no_danger u m tsDb tsMsg now last window cfg sp ep hd]
          exact detectionRows_persist tsDb u.id (run_inference m)
      | cons d ds =>
          rw [detectOk_fired u m tsDb tsMsg now last window cfg sp ep d ds hd hw,
            detectionRows_append, detectionRows_persist, detectionRows_alertBlock]
          simp
    · rw [detectOk_cooldown u m tsDb tsMsg now last window cfg sp ep hw]
      exact detectionRows_persist tsDb u.id (run_inference m)
  · by_cases hw : window ≤ now - last
    · cases hd : dangerOf (run_inference m) with
      | nil =>
          rw [detectOk_no_danger u m tsDb tsMsg now last window cfg sp ep hd]
          exact ⟨[], by simp, rfl⟩
      | cons d ds =>
          rw [detectOk_fired u m tsDb tsMsg now last window cfg sp ep d ds hd hw]
          exact ⟨alertBlock u tsMsg now cfg sp ep (pyMaxBy d ds), rfl,
            detectionRows_alertBlock u tsMsg now cfg sp ep (pyMaxBy d ds)⟩
    · rw [detectOk_cooldown u m tsDb tsMsg now last window cfg sp ep hw]
      exact ⟨[], by simp, rfl⟩

/-- C6 counterexample: with the model not loaded, an authenticated
request does not abort with a client-visible error: it succeeds with an
empty detection batch, an empty effect trace and an unchanged gate
state. -/
theorem C6_counterexample :
    detect (some uEx) none "td" "tm" 100 0 15 cfgEx (Except.ok ()) (Except.ok ())
      = Except.ok ⟨[], 0, []⟩ := by
  rfl

/-- C6 amended: if the detection model is not loaded, `run_inference`
returns an empty batch, the request succeeds (no client-visible error)
with an empty detections response, performs no persistence and leaves
the cooldown state unchanged. -/
theorem C6_model_not_loaded (u : User) (tsDb tsMsg : String)
    (now last window : ℚ) (cfg : NotifyConfig) (sp ep : Except String Unit) :
    detect (some u) none tsDb tsMsg now last window cfg sp ep
      = Except.ok ⟨[], last, []⟩ := by
  rfl

/-- C7 counterexample: in a concrete run where the gate opens for a
nonempty danger set, exactly one Alert row is persisted but zero log
rows tagged "DANGER ALERT" are written, where the claim requires exactly
one such log row; the committed gate state confirms the alert fired. -/
theorem C7_counterexample :
    (alertRows (detectOk uEx (some [dLion]) "td" "tm" 100 0 15 cfgEx
      (Except.ok ()) (Except.ok ())).events).length = 1 ∧
    dangerAlertLogs (detectOk uEx (some [dLion]) "td" "tm" 100 0 15 cfgEx
      (Except.ok ()) (Except.ok ())).events = [] ∧
    (detectOk uEx (some [dLion]) "td" "tm" 100 0 15 cfgEx
      (Except.ok ()) (Except.ok ())).lastAlertTime = 100 := by
  rw [detectOk_fired uEx (some [dLion]) "td" "tm" 100 0 15 cfgEx
    (Except.ok ()) (Except.ok ()) dLion [] rfl (by norm_num)]
  refine ⟨?_, ?_, rfl⟩
  · rw [alertRows_append, alertRows_persist, alertRows_alertBlock]
    rfl
  · rw [dangerAlertLogs_append, dangerAlertLogs_persist, dangerAlertLogs_alertBlock]
    rfl

/-- C7 amended: whenever the cooldown gate opens for a nonempty danger
set, the pipeline persists exactly one Alert row before responding,
carrying the selected detection's label and confidence and the user id
in the image-path slot; no log row tagged "DANGER ALERT" is written. -/
theorem C7_single_alert_row (u : User) (m : Option (List Detection))
    (tsDb tsMsg : String) (now last window : ℚ) (cfg : NotifyConfig)
    (sp ep : Except String Unit) (d : Detection) (ds : List Detection)
    (hd : dangerOf (run_inference m) = d :: ds) (hw : window ≤ now - last) :
    alertRows (detectOk u m tsDb tsMsg now last window cfg sp ep).events
      = [Event.insertAlert (pyMaxBy d ds).label (pyMaxBy d ds).confidence u.id 0] ∧
    dangerAlertLogs (detectOk u m tsDb tsMsg now last window cfg sp ep).events
      = [] := by
  rw [detectOk_fired u m tsDb tsMsg now last window cfg sp ep d ds hd hw]
  constructor
  · rw [alertRows_append, alertRows_persist, alertRows_alertBlock]
    rfl
  · rw [dangerAlertLogs_append, dangerAlertLogs_persist,
      dangerAlertLogs_alertBlock]
    rfl

/-- Witness for C7 at a concrete fired request. -/
theorem C7_witness :
    alertRows (detectOk uEx (some [dLion]) "td2" "tm2" 40 20 15 cfgEx
      (Except.error "sms provider down") (Except.ok ())).events
      = [Event.insertAlert dLion.label dLion.confidence uEx.id 0] ∧
    dangerAlertLogs (detectOk uEx (some [dLion]) "td2" "tm2" 40 20 15 cfgEx
      (Except.error "sms provider down") (Except.ok ())).events = [] :=
  C7_single_alert_row uEx (some [dLion]) "td2" "tm2" 40 20 15 cfgEx
    (Except.error "sms provider down") (Except.ok ()) dLion [] rfl (by norm_num)

/-- C8: one notification dispatch yields per-channel success booleans;
with SMS credentials absent and email credentials present, a known
recipient and a successful provider send, the outcome is
sms_sent = false and email_sent = true; the unconfigured SMS channel is
a silent no-op whatever its provider would have answered, and nothing is
raised, the dispatch being a total function into outcomes. -/
theorem C8_notification_outcome (f p recipient : String)
    (sp : Except String Unit) (hr : recipient ≠ "") :
    notify ⟨false, none, some f, some p⟩ sp (Except.ok ()) recipient
      = ⟨false, true⟩ ∧
    send_sms_alert false none sp = ChannelResult.skipped := by
  constructor
  · simp [notify, send_sms_alert, send_email_alert, hr]
  · simp [send_sms_alert]

/-- Witness for C8 at a concrete configuration with SMS unconfigured
and email configured. -/
theorem C8_witness :
    notify ⟨false, none, some "alerts@wildlife.ai", some "pw"⟩
      (Except.error "unconfigured") (Except.ok ()) "admin@wildlife.ai"
      = ⟨false, true⟩ ∧
    send_sms_alert false none (Except.error "unconfigured")
      = ChannelResult.skipped :=
  C8_notification_outcome "alerts@wildlife.ai" "pw" "admin@wildlife.ai"
    (Except.error "unconfigured") (by decide)

/-- The email-dispatch filter over a concatenation. -/
theorem emailAttempted_append (l₁ l₂ : List Event) :
    emailAttempted (l₁ ++ l₂) = (emailAttempted l₁ || emailAttempted l₂) := by
  simp [emailAttempted, List.any_append]

/-- C9: a failure in either notification channel neither prevents the
other channel from being attempted nor propagates: for any provider
outcomes the request still succeeds, and its database writes, gate
state, response body and whether the email channel was invoked are all
identical to those of a run whose providers both succeed. -/
theorem C9_channel_isolation (u : User) (m : Option (List Detection))
    (tsDb tsMsg : String) (now last window : ℚ) (cfg : NotifyConfig)
    (sp ep : Except String Unit) :
    detect (some u) m tsDb tsMsg now last window cfg sp ep
      = Except.ok (detectOk u m tsDb tsMsg now last window cfg sp ep) ∧
    dbOps (detectOk u m tsDb tsMsg now last window cfg sp ep).events
      = dbOps (detectOk u m tsDb tsMsg now last window cfg
          (Except.ok ()) (Except.ok ())).events ∧
    (detectOk u m tsDb tsMsg now last window cfg sp ep).lastAlertTime
      = (detectOk u m tsDb tsMsg now last window cfg
          (Except.ok ()) (Except.ok ())).lastAlertTime ∧
    (detectOk u m tsDb tsMsg now last window cfg sp ep).response
      = (detectOk u m tsDb tsMsg now last window cfg
          (Except.ok ()) (Except.ok ())).response ∧
    emailAttempted (detectOk u m tsDb tsMsg now last window cfg sp ep).events
      = emailAttempted (detectOk u m tsDb tsMsg now last window cfg
          (Except.ok ()) (Except.ok ())).events := by
  refine ⟨rfl, ?_⟩
  by_cases hw : window ≤ now - last
  · cases hd : dangerOf (run_inference m) with
    | nil =>
        rw [detectOk_no_danger u m tsDb tsMsg now last window cfg sp ep hd,
          detectOk_no_danger u m tsDb tsMsg now last window cfg
            (Except.ok ()) (Except.ok ()) hd]
        exact ⟨rfl, rfl, rfl, rfl⟩
    | cons d ds =>
        rw [detectOk_fired u m tsDb tsMsg now last window cfg sp ep d ds hd hw,
          detectOk_fired u m tsDb tsMsg now last window cfg
            (Except.ok ()) (Except.ok ()) d ds hd hw]
        refine ⟨?_, rfl, rfl, ?_⟩
        · rw [dbOps_append, dbOps_append, dbOps_alertBlock, dbOps_alertBlock]
        · rw [emailAttempted_append, emailAttempted_append,
            emailAttempted_alertBlock, emailAttempted_alertBlock]
  · rw [detectOk_cooldown u m tsDb tsMsg now last window cfg sp ep hw,
      detectOk_cooldown u m tsDb tsMsg now last window cfg
        (Except.ok ()) (Except.ok ()) hw]
    exact ⟨rfl, rfl, rfl, rfl⟩

/-- An index search skips a prefix on which the predicate never holds. -/
theorem findIdx_append_of_none {p : Event → Bool} {l₁ l₂ : List Event}
    (h : ∀ e ∈ l₁, p e = false) :
    (l₁ ++ l₂).findIdx p = l₁.length + l₂.findIdx p := by
  induction l₁ with
  | nil => simp
  | cons a l ih =>
      have ha : p a = false := h a (List.mem_cons_self _ _)
      have ih' := ih fun e he => h e (List.mem_cons_of_mem _ he)
      simp [List.findIdx_cons, ha, ih']
      omega

/-- C10 counterexample: in a concrete fired run the write to
`_last_alert_time` does not precede the notification dispatches: the
first dispatch event occurs strictly before the first gate update. -/
theorem C10_counterexample :
    gateUpdateBeforeDispatch (detectOk uEx (some [dLion]) "td" "tm" 100 0 15
      cfgEx (Except.ok ()) (Except.ok ())).events = false ∧
    (detectOk uEx (some [dLion]) "td" "tm" 100 0 15 cfgEx
      (Except.ok ()) (Except.ok ())).events.any isGateUpdate = true ∧
    (detectOk uEx (some [dLion]) "td" "tm" 100 0 15 cfgEx
      (Except.ok ()) (Except.ok ())).events.any isDispatch = true := by
  rw [detectOk_fired uEx (some [dLion]) "td" "tm" 100 0 15 cfgEx
    (Except.ok ()) (Except.ok ()) dLion [] rfl (by norm_num)]
  exact ⟨rfl, rfl, rfl⟩

/-- C10 amended: on every fired alert the update of `_last_alert_at` is
the final step of the alert branch, performed after the notification
dispatches (and after the alert insert): the trace ends with the gate
update and its first dispatch event strictly precedes its first gate
update; there is no lock, the gate's read and its commit spanning the
blocking dispatch calls. -/
theorem C10_gate_update_after_dispatch (u : User) (m : Option (List Detection))
    (tsDb tsMsg : String) (now last window : ℚ) (cfg : NotifyConfig)
    (sp ep : Except String Unit) (d : Detection) (ds : List Detection)
    (hd : dangerOf (run_inference m) = d :: ds) (hw : window ≤ now - last) :
    (detectOk u m tsDb tsMsg now last window cfg sp ep).events.any isDispatch
      = true ∧
    (detectOk u m tsDb tsMsg now last window cfg sp ep).events.getLast?
      = some (Event.gateUpdate now) ∧
    (detectOk u m tsDb tsMsg now last window cfg sp ep).events.findIdx isDispatch
      < (detectOk u m tsDb tsMsg now last window cfg sp ep).events.findIdx
          isGateUpdate := by
  rw [detectOk_fired u m tsDb tsMsg now last window cfg sp ep d ds hd hw]
  have hpers := persist_only_inserts tsDb u.id (run_inference m)
  refine ⟨?_, ?_, ?_⟩
  · by_cases hm : u.email == "" <;>
      simp [alertBlock, hm, List.any_append, isDispatch]
  · rw [List.getLast?_append_of_ne_nil]
    · by_cases hm : u.email == "" <;> simp [alertBlock, hm]
    · by_cases hm : u.email == "" <;> simp [alertBlock, hm]
  · rw [findIdx_append_of_none fun e he => (hpers e he).1,
      findIdx_append_of_none fun e he => (hpers e he).2]
    have hblock : (alertBlock u tsMsg now cfg sp ep (pyMaxBy d ds)).findIdx
          isDispatch
        < (alertBlock u tsMsg now cfg sp ep (pyMaxBy d ds)).findIdx
          isGateUpdate := by
      by_cases hm : u.email == "" <;>
        simp [alertBlock, hm, List.findIdx_cons, isDispatch, isGateUpdate]
    omega

/-- Witness for C10 at a concrete fired request with a failing email
provider. -/
theorem C10_witness :
    (detectOk uEx (some [dLion]) "td3" "tm3" 50 30 15 cfgEx
      (Except.ok ()) (Except.error "smtp down")).events.any isDispatch = true ∧
    (detectOk uEx (some [dLion]) "td3" "tm3" 50 30 15 cfgEx
      (Except.ok ()) (Except.error "smtp down")).events.getLast?
      = some (Event.gateUpdate 50) ∧
    (detectOk uEx (some [dLion]) "td3" "tm3" 50 30 15 cfgEx
      (Except.ok ()) (Except.error "smtp down")).events.findIdx isDispatch
      < (detectOk uEx (some [dLion]) "td3" "tm3" 50 30 15 cfgEx
          (Except.ok ()) (Except.error "smtp down")).events.findIdx
          isGateUpdate :=
  C10_gate_update_after_dispatch uEx (some [dLion]) "td3" "tm3" 50 30 15 cfgEx
    (Except.ok ()) (Except.error "smtp down") dLion [] rfl (by norm_num)

end Backend
